import Mathlib

/-!
# Verification of the AQI analysis scripts

Shallow embedding of the three Python scripts of the repository
(`aqi_map_visualization.py`, `aqi_monitor.py`, `distance_analysis.py`)
and proofs of the behavioural properties claimed by the specification.

Conventions used throughout:
* a Python `None` value is modelled by `Option.none`;
* a Python function that can raise an exception is modelled as returning
  `Option`, with `none` standing for "raises";
* pandas `NaN` statistics over an empty column are modelled by `none`;
* machine floats on integral/decimal data are modelled by `Rat`
  (the scripts only ever feed decimal literals to them), and the
  trigonometric haversine arithmetic is modelled over `ℝ`.
-/

/-! ## Classifier table (`aqi_map_visualization.py`, lines 16-41) -/

/-- One entry of the fixed six-band table: `aqi_ranges` together with the
associated entry of `aqi_colors` and `aqi_labels`. -/
structure AQIBand where
  name : String
  lo : Int
  hi : Int
  color : String
  label : String
deriving DecidableEq

/-- The fixed band table, in the iteration order of the Python dicts
(`aqi_ranges` zipped with `aqi_colors` and `aqi_labels`). -/
def aqi_ranges : List AQIBand :=
  [ ⟨"good", 0, 50, "#00E400", "良好 (0-50)"⟩,
    ⟨"moderate", 51, 100, "#FFFF00", "普通 (51-100)"⟩,
    ⟨"unhealthy_sensitive", 101, 150, "#FF7E00", "對敏感族群不健康 (101-150)"⟩,
    ⟨"unhealthy", 151, 200, "#FF0000", "對所有族群不健康 (151-200)"⟩,
    ⟨"very_unhealthy", 201, 300, "#8F3F97", "非常不健康 (201-300)"⟩,
    ⟨"hazardous", 301, 500, "#7E0023", "危害 (301-500)"⟩ ]

/-- The linear scan `for category, (min_val, max_val) in self.aqi_ranges.items():
if min_val <= aqi_value <= max_val: ...` shared by `get_aqi_color` and
`get_aqi_category`. -/
def findBand : List AQIBand → Int → Option AQIBand
  | [], _ => none
  | b :: bs, v => if b.lo ≤ v ∧ v ≤ b.hi then some b else findBand bs v

/-- `AQIMapVisualizer.get_aqi_color` (lines 43-52). -/
def get_aqi_color (aqi_value : Option Int) : String :=
  match aqi_value with
  | none => "#808080"
  | some v =>
    match findBand aqi_ranges v with
    | some b => b.color
    | none => "#808080"

/-- `AQIMapVisualizer.get_aqi_category` (lines 54-63). -/
def get_aqi_category (aqi_value : Option Int) : String :=
  match aqi_value with
  | none => "無資料"
  | some v =>
    match findBand aqi_ranges v with
    | some b => b.label
    | none => "超出範圍"

/-- The names of all bands of the table whose inclusive range contains `v`
(used to state that the table assigns each value to exactly one band). -/
def bandsMatching (v : Int) : List String :=
  (aqi_ranges.filter fun b => decide (b.lo ≤ v ∧ v ≤ b.hi)).map AQIBand.name

example : bandsMatching 50 = ["good"] := by decide
example : bandsMatching 51 = ["moderate"] := by decide
example : bandsMatching 501 = [] := by decide
example : get_aqi_category (some 501) = "超出範圍" := by decide
example : get_aqi_color (some (-1)) = "#808080" := by decide

/-! ## Band counter and statistics (`aqi_map_visualization.py`, lines 179-212)

`create_statistics_summary` only reads the `aqi` column of the dataframe, so
the dataframe is modelled by the list of that column's values
(`none` = pandas `NaN`).  A `NaN` entry fails both comparisons of
`(df['aqi'] >= min_val) & (df['aqi'] <= max_val)`, exactly like `none` below. -/

/-- `len(df[(df['aqi'] >= min_val) & (df['aqi'] <= max_val)])` for one band. -/
def bandCount (l : List (Option Int)) (b : AQIBand) : Nat :=
  l.countP fun a =>
    match a with
    | some v => decide (b.lo ≤ v ∧ v ≤ b.hi)
    | none => false

/-- `len(df[df['aqi'].isna()])` (line 191). -/
def missingCount (l : List (Option Int)) : Nat :=
  l.countP fun a => a.isNone

/-- The `category_counts` dict (lines 185-193): one entry per band in table
order, plus a `'missing'` entry appended only when `missing_count > 0`. -/
def category_distribution (l : List (Option Int)) : List (String × Nat) :=
  (aqi_ranges.map fun b => (b.name, bandCount l b)) ++
    (if 0 < missingCount l then [("missing", missingCount l)] else [])

/-- The total of every bucket of `category_counts` (the six bands plus the
missing bucket), the quantity the spec claims equals the dataset size. -/
def bucketSum (l : List (Option Int)) : Nat :=
  (aqi_ranges.map fun b => bandCount l b).sum + missingCount l

/-- Python 3 `round` at a half-integer: round half to even (banker's
rounding); elsewhere, nearest integer. -/
def pyRoundInt (q : Rat) : Int :=
  if q - ⌊q⌋ = 1 / 2 then (if ⌊q⌋ % 2 = 0 then ⌊q⌋ else ⌊q⌋ + 1)
  else ⌊q + 1 / 2⌋

/-- Python `round(x, 1)`. -/
def pyRound1 (q : Rat) : Rat :=
  (pyRoundInt (10 * q) : Rat) / 10

/-- Python `int(...)` on a number: truncation toward zero. -/
def pyInt (q : Rat) : Int :=
  q.num / (q.den : Int)

/-- `pandas.Series.median`: middle element of the sorted values, or the mean
of the two middle elements when the count is even; `NaN` (here `none`) on an
empty series. -/
def pandasMedian (l : List Int) : Option Rat :=
  match l with
  | [] => none
  | _ =>
    let s := l.mergeSort fun a b => decide (a ≤ b)
    let n := s.length
    if n % 2 = 1 then some ((s.getD (n / 2) 0 : Int) : Rat)
    else some ((((s.getD (n / 2 - 1) 0 : Int) : Rat) + ((s.getD (n / 2) 0 : Int) : Rat)) / 2)

/-- The `'statistics'` sub-dict of `create_statistics_summary` (lines 203-208). -/
structure AQIStats where
  max_aqi : Option Int
  min_aqi : Option Int
  avg_aqi : Option Rat
  median_aqi : Option Int
deriving DecidableEq

/-- Lines 196-208: aggregate of the non-null AQI values (`valid_aqi`);
every field is `None` when `valid_aqi` is empty. -/
def statisticsOf (l : List (Option Int)) : AQIStats :=
  let valid := l.filterMap id
  { max_aqi := valid.max?
    min_aqi := valid.min?
    avg_aqi :=
      if valid.length = 0 then none
      else some (pyRound1 ((valid.sum : Rat) / (valid.length : Rat)))
    median_aqi := (pandasMedian valid).map pyInt }

/-- `AQIMapVisualizer.create_statistics_summary` (lines 179-212), without the
wall-clock timestamp field. -/
structure MapSummary where
  total_stations : Nat
  stations_with_data : Nat
  stations_missing_data : Nat
  category_distribution : List (String × Nat)
  statistics : AQIStats
deriving DecidableEq

def create_statistics_summary (l : List (Option Int)) : MapSummary :=
  { total_stations := l.length
    stations_with_data := (l.filterMap id).length
    stations_missing_data := missingCount l
    category_distribution := category_distribution l
    statistics := statisticsOf l }

example : bucketSum [some 0, some 500, none] = 3 := by decide
example : bucketSum [some 501] = 0 := by decide
example : (category_distribution [some 10]).map Prod.fst =
    ["good", "moderate", "unhealthy_sensitive", "unhealthy",
      "very_unhealthy", "hazardous"] := by decide

/-! ## Normalizer (`aqi_monitor.py`, lines 61-93)

The raw API records carry every field as a string (possibly absent).
`none` models an absent key (`record.get(k)` returning Python `None`).
Python `int(...)`/`float(...)` on a string either produce a number or raise
`ValueError`; the parsers below model them on plain decimal literals and
return `none` for "raises". -/

/-- Digits of a decimal integer; `none` when empty or any non-digit occurs
(Python `int` raises there). -/
def digitsToNat : List Char → Option Nat
  | [] => none
  | cs =>
    cs.foldlM (fun acc c => if c.isDigit then some (acc * 10 + (c.toNat - 48)) else none) 0

/-- Python `int(s)` on a decimal string literal. -/
def parsePyInt (s : String) : Option Int :=
  match s.toList with
  | '-' :: rest => (digitsToNat rest).map fun n => -(n : Int)
  | '+' :: rest => (digitsToNat rest).map fun n => (n : Int)
  | cs => (digitsToNat cs).map fun n => (n : Int)

/-- Value of the digits after the decimal point. -/
def fracPartVal (cs : List Char) : Rat :=
  cs.foldr (fun c acc => (acc + ((c.toNat - 48 : Nat) : Rat)) / 10) 0

/-- Digits before the decimal point, folded to a `Nat`. -/
def intPartVal (cs : List Char) : Nat :=
  cs.foldl (fun acc c => acc * 10 + (c.toNat - 48)) 0

/-- Python `float(s)` on a plain decimal string literal (`"12"`, `"12.5"`,
`".5"`, `"5."`); `none` when the string is not such a literal (Python
`float` raises `ValueError`). -/
def parsePyFloat (s : String) : Option Rat :=
  let body : List Char → Option Rat := fun cs =>
    match cs.splitOn '.' with
    | [ip] => (digitsToNat ip).map fun n => (n : Rat)
    | [ip, fp] =>
      if ip.isEmpty && fp.isEmpty then none
      else if ip.all Char.isDigit && fp.all Char.isDigit then
        some ((intPartVal ip : Rat) + fracPartVal fp)
      else none
    | _ => none
  match s.toList with
  | '-' :: rest => (body rest).map Neg.neg
  | '+' :: rest => body rest
  | cs => body cs

/-- Python truthiness of a raw field value: `None` and `""` are falsy, any
other string is truthy. -/
def pyTruthy : Option String → Bool
  | none => false
  | some s => !s.isEmpty

/-- `int(record.get(k, 0)) if record.get(k) else None`: a falsy raw value
gives field `None`; otherwise the parse either yields the value or raises
(outer `none`). -/
def coerceIntField (v : Option String) : Option (Option Int) :=
  if pyTruthy v then
    match v with
    | some s => (parsePyInt s).map some
    | none => some none
  else some none

/-- `float(record.get(k, 0)) if record.get(k) else None`, same shape as
`coerceIntField`. -/
def coerceFloatField (v : Option String) : Option (Option Rat) :=
  if pyTruthy v then
    match v with
    | some s => (parsePyFloat s).map some
    | none => some none
  else some none

/-- One raw API record (`record.get(...)` fields used by
`process_aqi_data`); absent keys default to `none`. -/
structure RawRecord where
  siteid : Option String := none
  sitename : Option String := none
  county : Option String := none
  aqi : Option String := none
  pollutant : Option String := none
  status : Option String := none
  pm25 : Option String := none
  pm10 : Option String := none
  so2 : Option String := none
  no2 : Option String := none
  co : Option String := none
  o3 : Option String := none
  windspeed : Option String := none
  winddirec : Option String := none
  datacreationdate : Option String := none
  latitude : Option String := none
  longitude : Option String := none
deriving DecidableEq

/-- One processed station reading (`processed_record`, lines 69-87);
absent keys default to `none`. -/
structure ProcessedRecord where
  site_id : Option String := none
  site_name : Option String := none
  county : Option String := none
  aqi : Option Int := none
  pollutant : Option String := none
  status : Option String := none
  pm25 : Option Rat := none
  pm10 : Option Rat := none
  so2 : Option Rat := none
  no2 : Option Rat := none
  co : Option Rat := none
  o3 : Option Rat := none
  wind_speed : Option Rat := none
  wind_direction : Option Rat := none
  data_time : Option String := none
  latitude : Option Rat := none
  longitude : Option Rat := none
deriving DecidableEq

/-- The `try` body for one record (lines 68-88): build the processed record
when every field coercion succeeds, `none` when any coercion raises
(`ValueError`/`TypeError`), in which case the record is skipped. -/
def processRecord (r : RawRecord) : Option ProcessedRecord :=
  match coerceIntField r.aqi, coerceFloatField r.pm25, coerceFloatField r.pm10,
      coerceFloatField r.so2, coerceFloatField r.no2, coerceFloatField r.co,
      coerceFloatField r.o3, coerceFloatField r.windspeed,
      coerceFloatField r.winddirec, coerceFloatField r.latitude,
      coerceFloatField r.longitude with
  | some aqi, some pm25, some pm10, some so2, some no2, some co, some o3,
      some wind_speed, some wind_direction, some latitude, some longitude =>
    some { site_id := r.siteid, site_name := r.sitename, county := r.county,
           aqi, pollutant := r.pollutant, status := r.status,
           pm25, pm10, so2, no2, co, o3, wind_speed, wind_direction,
           data_time := r.datacreationdate, latitude, longitude }
  | _, _, _, _, _, _, _, _, _, _, _ => none

/-- `AQIMonitor.process_aqi_data` (lines 61-93): `None` on falsy input,
otherwise each record processed independently and failing records skipped. -/
def process_aqi_data (raw : List RawRecord) : Option (List ProcessedRecord) :=
  if raw.isEmpty then none
  else some (raw.filterMap processRecord)

/-- The filter predicate of `identify_high_aqi_stations` (line 102):
`station['aqi'] and station['aqi'] > threshold`.  Python truthiness makes
both `None` and `0` fail the first conjunct. -/
def highAQIPred (threshold : Int) (s : ProcessedRecord) : Bool :=
  match s.aqi with
  | none => false
  | some a => decide (a ≠ 0) && decide (threshold < a)

/-- The sort key `lambda x: x['aqi']` (line 106); on the filtered list the
AQI is always present. -/
def aqiKey (s : ProcessedRecord) : Int :=
  s.aqi.getD 0

/-- `AQIMonitor.identify_high_aqi_stations` (lines 95-108): filter, then
Python's stable `list.sort(key=..., reverse=True)`, i.e. a stable
non-increasing sort by AQI. -/
def identify_high_aqi_stations (processed : List ProcessedRecord) (threshold : Int) :
    List ProcessedRecord :=
  (processed.filter (highAQIPred threshold)).mergeSort
    fun a b => decide (aqiKey b ≤ aqiKey a)

/-- `AQIMonitor.generate_summary` (lines 110-132), without the wall-clock
timestamp field. -/
structure MonitorSummary where
  total_stations : Nat
  stations_with_aqi_data : Nat
  high_aqi_stations : Nat
  percentage_high_aqi : Rat
  max_aqi : Option Int
  min_aqi : Option Int
  avg_aqi : Option Rat
deriving DecidableEq

def generate_summary (processed high : List ProcessedRecord) : Option MonitorSummary :=
  if processed.isEmpty then none
  else
    let aqi_values := processed.filterMap ProcessedRecord.aqi
    some { total_stations := processed.length
           stations_with_aqi_data := aqi_values.length
           high_aqi_stations := high.length
           percentage_high_aqi :=
             if processed.length = 0 then 0
             else ((high.length : Rat) / (processed.length : Rat)) * 100
           max_aqi := aqi_values.max?
           min_aqi := aqi_values.min?
           avg_aqi :=
             if aqi_values.isEmpty then none
             else some ((aqi_values.sum : Rat) / (aqi_values.length : Rat)) }

/-- The summary display of `run_monitoring` (lines 211-221): the f-string
`{summary['avg_aqi']:.1f}` raises `TypeError` when `avg_aqi` is `None`;
the loop over the high-AQI list prints one line per station and never
raises.  Returns the number of station lines printed, `none` for a raise. -/
def display_results (s : MonitorSummary) (high : List ProcessedRecord) : Option Nat :=
  match s.avg_aqi with
  | none => none
  | some _ => some high.length

example : parsePyInt "66" = some 66 := by decide
example : parsePyFloat "abc" = none := by decide
example : coerceIntField (some "") = some none := by decide
example : coerceIntField none = some none := by decide
example : processRecord { latitude := some "abc" } = none := by decide
example : highAQIPred 50 { aqi := some 51 } = true := by decide
example : highAQIPred (-1) { aqi := some 0 } = false := by decide

/-! ## Distance analysis (`distance_analysis.py`)

The haversine arithmetic is modelled over `ℝ` (idealising the float
arithmetic of `math.sin`/`cos`/`asin`/`sqrt`). -/

/-- Python `math.radians`: degrees to radians. -/
noncomputable def radiansOf (d : ℝ) : ℝ :=
  d * Real.pi / 180

/-- `DistanceAnalyzer.haversine_distance` (lines 27-45), line for line:
convert the four inputs to radians, form the haversine term `a`, then
`c = 2 * asin(sqrt(a))` and the distance `c * r` with `r = 6371`. -/
noncomputable def haversine_distance (lat1 lon1 lat2 lon2 : ℝ) : ℝ :=
  let lat1r := radiansOf lat1
  let lon1r := radiansOf lon1
  let lat2r := radiansOf lat2
  let lon2r := radiansOf lon2
  let dlat := lat2r - lat1r
  let dlon := lon2r - lon1r
  let a := Real.sin (dlat / 2) ^ 2 +
    Real.cos lat1r * Real.cos lat2r * Real.sin (dlon / 2) ^ 2
  let c := 2 * Real.arcsin (Real.sqrt a)
  c * 6371

/-- Modelled from the spec (§4.2), for the refinement comparison of claim
C4: "convert both to radians, `a = sin²(Δlat/2) + cos(lat1)·cos(lat2)·
sin²(Δlon/2)`, `distance = 2·R·asin(√a)`, `R = 6371` km". -/
noncomputable def haversineSpec (lat1 lon1 lat2 lon2 : ℝ) : ℝ :=
  let p1 := lat1 * Real.pi / 180
  let q1 := lon1 * Real.pi / 180
  let p2 := lat2 * Real.pi / 180
  let q2 := lon2 * Real.pi / 180
  2 * 6371 * Real.arcsin (Real.sqrt
    (Real.sin ((p2 - p1) / 2) ^ 2 +
      Real.cos p1 * Real.cos p2 * Real.sin ((q2 - q1) / 2) ^ 2))

/-- One row of the dataframe reaching `analyze_distance_distribution`
(only the fields that function reads). -/
structure DistRow where
  site_name : String := ""
  county : String := ""
  aqi : Option Int := none
  distance_to_taipei : Rat := 0
deriving DecidableEq

/-- `pandas.Series.idxmin`: index of the first minimum; raises
`ValueError` (`none`) on an empty series. -/
def idxmin (l : List Rat) : Option Nat :=
  l.min?.bind fun m => l.findIdx? fun x => decide (x = m)

/-- `pandas.Series.idxmax`, same shape. -/
def idxmax (l : List Rat) : Option Nat :=
  l.max?.bind fun m => l.findIdx? fun x => decide (x = m)

/-- `pandas.Series.median` over the (already rounded) distances. -/
def medianRat (l : List Rat) : Option Rat :=
  match l with
  | [] => none
  | _ =>
    let s := l.mergeSort fun a b => decide (a ≤ b)
    let n := s.length
    if n % 2 = 1 then some (s.getD (n / 2) 0)
    else some ((s.getD (n / 2 - 1) 0 + s.getD (n / 2) 0) / 2)

/-- `pandas.Series.std` (sample standard deviation, `ddof = 1`): `NaN`
(`none`) on fewer than two values. -/
noncomputable def stdDev (l : List Rat) : Option ℝ :=
  match l with
  | [] => none
  | [_] => none
  | _ =>
    let n : ℝ := l.length
    let m : ℝ := (l.map fun x => (x : ℝ)).sum / n
    some (Real.sqrt ((l.map fun x => ((x : ℝ) - m) ^ 2).sum / (n - 1)))

/-- The `analysis` dict of `analyze_distance_distribution` (lines 85-94). -/
structure DistAnalysis where
  total_stations : Nat
  avg_distance : Option Rat
  median_distance : Option Rat
  min_distance : Option Rat
  max_distance : Option Rat
  std_distance : Option ℝ
  nearest_station : DistRow
  farthest_station : DistRow

/-- `DistanceAnalyzer.analyze_distance_distribution` (lines 80-96): the
aggregate statistics tolerate an empty frame (pandas yields `NaN`), but
`idxmin`/`idxmax` raise `ValueError` there, so the whole call raises
(`none`) on a zero-length input. -/
noncomputable def analyze_distance_distribution (rows : List DistRow) :
    Option DistAnalysis := do
  let ds := rows.map DistRow.distance_to_taipei
  let ni ← idxmin ds
  let fi ← idxmax ds
  let nearest ← rows.get? ni
  let farthest ← rows.get? fi
  some { total_stations := rows.length
         avg_distance :=
           if ds.isEmpty then none else some (ds.sum / (ds.length : Rat))
         median_distance := medianRat ds
         min_distance := ds.min?
         max_distance := ds.max?
         std_distance := stdDev ds
         nearest_station := nearest
         farthest_station := farthest }

example : idxmin [] = none := by decide
example : idxmin [3, 1, 2, 1] = some 1 := by decide

/-! ## Helper lemmas -/

/-- Scanning the table finds no band for a value below 0 or above 500. -/
theorem findBand_out_of_range (v : Int) (h : v < 0 ∨ 500 < v) :
    findBand aqi_ranges v = none := by
  simp only [aqi_ranges, findBand]
  split_ifs <;> first | rfl | omega

/-- Whether a reading belongs to some bucket of `category_counts`:
either missing or with AQI inside `[0, 500]`. -/
def nullOrInRange (a : Option Int) : Bool :=
  match a with
  | none => true
  | some v => decide (0 ≤ v ∧ v ≤ 500)

theorem bucketSum_cons (a : Option Int) (l : List (Option Int)) :
    bucketSum (a :: l) = bucketSum l + (if nullOrInRange a then 1 else 0) := by
  simp only [bucketSum, bandCount, missingCount, aqi_ranges, List.map_cons,
    List.map_nil, List.sum_cons, List.sum_nil, List.countP_cons]
  cases a with
  | none => simp [nullOrInRange]; omega
  | some v =>
    simp only [nullOrInRange, Option.isNone_some, decide_eq_true_eq, if_false,
      Bool.false_eq_true]
    split_ifs <;> omega

theorem bucketSum_eq_countP (l : List (Option Int)) :
    bucketSum l = l.countP nullOrInRange := by
  induction l with
  | nil => decide
  | cons a l ih =>
    rw [bucketSum_cons, List.countP_cons, ih]

/-! ## Claims about the classifier -/

set_option maxRecDepth 4000 in
/-- C1: every integer AQI value in `[0, 500]` matches exactly one band of
the six-range table (the ranges partition `[0, 500]`); a `None` input gives
the missing marker `'無資料'`; the out-of-range inputs `-1` and `501` give
the distinct out-of-range marker `'超出範圍'`, with no fault (the functions
are total). -/
theorem classifier_partition :
    (∀ v : Fin 501, (bandsMatching (v.val : Int)).length = 1)
    ∧ get_aqi_category none = "無資料"
    ∧ get_aqi_category (some (-1)) = "超出範圍"
    ∧ get_aqi_category (some 501) = "超出範圍"
    ∧ "無資料" ≠ "超出範圍" :=
  ⟨by decide, by decide, by decide, by decide, by decide⟩

/-- C9: any AQI value outside all six bands gets the same color `'#808080'`
as a missing value, so the marker color does not distinguish the two cases,
although `get_aqi_category` does. -/
theorem out_of_range_color_matches_missing (v : Int) (h : v < 0 ∨ 500 < v) :
    get_aqi_color (some v) = "#808080"
    ∧ get_aqi_color (some v) = get_aqi_color none
    ∧ get_aqi_category (some v) ≠ get_aqi_category none := by
  have hf := findBand_out_of_range v h
  refine ⟨?_, ?_, ?_⟩ <;> simp [get_aqi_color, get_aqi_category, hf]

/-- Witness for C9 at the concrete out-of-range value `501`. -/
theorem out_of_range_color_matches_missing_witness :
    get_aqi_color (some 501) = "#808080"
    ∧ get_aqi_color (some 501) = get_aqi_color none
    ∧ get_aqi_category (some 501) ≠ get_aqi_category none :=
  out_of_range_color_matches_missing 501 (Or.inr (by decide))

/-- C10: the category distribution has a `'missing'` key iff some reading
has a null AQI; with no null AQI it has exactly the six band keys. -/
theorem missing_bucket_iff (l : List (Option Int)) :
    ("missing" ∈ (category_distribution l).map Prod.fst ↔ none ∈ l)
    ∧ (none ∉ l →
      (category_distribution l).map Prod.fst =
        ["good", "moderate", "unhealthy_sensitive", "unhealthy",
          "very_unhealthy", "hazardous"]) := by
  have hmc : 0 < missingCount l ↔ none ∈ l := by
    simp [missingCount, List.countP_pos_iff, Option.isNone_iff_eq_none]
  by_cases h : none ∈ l
  · refine ⟨?_, fun hn => absurd h hn⟩
    rw [category_distribution, if_pos (hmc.mpr h)]
    simp [aqi_ranges, h]
  · have hnot : ¬ 0 < missingCount l := fun hp => h (hmc.mp hp)
    refine ⟨?_, fun _ => ?_⟩ <;> rw [category_distribution, if_neg hnot] <;>
      simp [aqi_ranges, h]

/-- Witness for C10 at a concrete dataset with no missing AQI. -/
theorem missing_bucket_iff_witness :
    (category_distribution [some 10]).map Prod.fst =
      ["good", "moderate", "unhealthy_sensitive", "unhealthy",
        "very_unhealthy", "hazardous"] :=
  (missing_bucket_iff [some 10]).2 (by decide)

/-! ## Claims about the band counter -/

/-- C2 counterexample: on the dataset with the single reading `aqi = 501`
the bucket counts (six bands plus missing) sum to `0`, not to the dataset
size `1`, refuting "the sum over all buckets equals exactly the size of the
input collection" for every collection. -/
theorem bucket_sum_counterexample :
    bucketSum [some 501] = 0 ∧ ([some 501] : List (Option Int)).length = 1 :=
  ⟨by decide, by decide⟩

/-- C2 amended: each reading contributes to at most one band count; the
bucket counts sum to the number of readings whose AQI is null or inside
`[0, 500]` — hence always at most the dataset size, with equality exactly
when no reading carries an out-of-range AQI. -/
theorem bucket_sum_amended (l : List (Option Int)) :
    (∀ v : Int, (bandsMatching v).length ≤ 1)
    ∧ bucketSum l = l.countP nullOrInRange
    ∧ bucketSum l ≤ l.length
    ∧ ((∀ a ∈ l, nullOrInRange a = true) → bucketSum l = l.length) := by
  refine ⟨?_, bucketSum_eq_countP l, ?_, fun h => ?_⟩
  · intro v
    simp only [bandsMatching, aqi_ranges, List.filter_cons, List.filter_nil,
      decide_eq_true_eq]
    split_ifs <;> first | omega | decide
  · exact (bucketSum_eq_countP l).le.trans (List.countP_le_length _)
  · rw [bucketSum_eq_countP l, List.countP_eq_length]
    exact h

/-- Witness for C2 (amended) on a concrete in-range dataset. -/
theorem bucket_sum_amended_witness :
    bucketSum [some 10, none] = ([some 10, none] : List (Option Int)).length :=
  (bucket_sum_amended [some 10, none]).2.2.2 (by decide)

/-! ## Claims about the threshold filter -/

/-- A station whose AQI is the legitimate value `0`. -/
def zeroAqiStation : ProcessedRecord :=
  { site_name := some "Z", aqi := some 0 }

/-- C3 counterexample: with threshold `-1`, the station with non-null AQI
`0 > -1` is excluded by the Python truthiness test
`station['aqi'] and station['aqi'] > threshold`, so the filter does not
return "exactly the subset of readings whose AQI is non-null and strictly
greater than the threshold" for every numeric threshold. -/
theorem threshold_filter_counterexample :
    zeroAqiStation.aqi = some 0 ∧ (-1 : Int) < 0 ∧
    identify_high_aqi_stations [zeroAqiStation] (-1) = [] := by
  refine ⟨rfl, by decide, ?_⟩
  have h : [zeroAqiStation].filter (highAQIPred (-1)) = [] := by decide
  rw [identify_high_aqi_stations, h, List.mergeSort_nil]

theorem aqiKeyLE_trans (a b c : ProcessedRecord)
    (hab : decide (aqiKey b ≤ aqiKey a) = true)
    (hbc : decide (aqiKey c ≤ aqiKey b) = true) :
    decide (aqiKey c ≤ aqiKey a) = true := by
  simp only [decide_eq_true_eq] at hab hbc ⊢
  omega

theorem aqiKeyLE_total (a b : ProcessedRecord) :
    (decide (aqiKey b ≤ aqiKey a) || decide (aqiKey a ≤ aqiKey b)) = true := by
  simp only [Bool.or_eq_true, decide_eq_true_eq]
  omega

/-- C3 amended: the threshold filter returns exactly the readings whose AQI
is non-null, **non-zero** and strictly greater than the threshold (Python
truthiness also drops a zero AQI; for thresholds `≥ 0` this coincides with
the original claim), sorted non-increasingly by AQI with ties keeping their
input order. -/
theorem threshold_filter_amended (l : List ProcessedRecord) (t : Int) :
    (identify_high_aqi_stations l t).Perm (l.filter (highAQIPred t))
    ∧ (∀ s, s ∈ identify_high_aqi_stations l t ↔ s ∈ l ∧ highAQIPred t s = true)
    ∧ (∀ s ∈ identify_high_aqi_stations l t, ∃ a, s.aqi = some a ∧ a ≠ 0 ∧ t < a)
    ∧ (identify_high_aqi_stations l t).Pairwise (fun a b => aqiKey b ≤ aqiKey a)
    ∧ (∀ a b, aqiKey a = aqiKey b → List.Sublist [a, b] (l.filter (highAQIPred t)) →
        List.Sublist [a, b] (identify_high_aqi_stations l t)) := by
  refine ⟨List.mergeSort_perm _ _, ?_, ?_, ?_, ?_⟩
  · intro s
    rw [identify_high_aqi_stations, List.mem_mergeSort, List.mem_filter]
  · intro s hs
    rw [identify_high_aqi_stations, List.mem_mergeSort, List.mem_filter] at hs
    obtain ⟨-, hp⟩ := hs
    unfold highAQIPred at hp
    cases haq : s.aqi with
    | none => rw [haq] at hp; exact absurd hp (by simp)
    | some a =>
      rw [haq] at hp
      simp only [Bool.and_eq_true, decide_eq_true_eq] at hp
      exact ⟨a, rfl, hp.1, hp.2⟩
  · have h := List.sorted_mergeSort aqiKeyLE_trans aqiKeyLE_total
      (l.filter (highAQIPred t))
    exact h.imp fun hab => by simpa using hab
  · intro a b hk hsub
    exact List.pair_sublist_mergeSort aqiKeyLE_trans aqiKeyLE_total
      (by simp [hk]) hsub

/-- Two tied high-AQI stations and one below the threshold. -/
def tiedStationA : ProcessedRecord := { site_name := some "A", aqi := some 80 }

def tiedStationB : ProcessedRecord := { site_name := some "B", aqi := some 80 }

def lowStation : ProcessedRecord := { site_name := some "L", aqi := some 30 }

/-- Witness for C3 (amended): at threshold `50`, the two stations tied at
AQI `80` keep their input order in the output. -/
theorem threshold_filter_amended_witness :
    List.Sublist [tiedStationA, tiedStationB]
      (identify_high_aqi_stations [lowStation, tiedStationA, tiedStationB] 50) := by
  have hfil : [lowStation, tiedStationA, tiedStationB].filter (highAQIPred 50) =
      [tiedStationA, tiedStationB] := by decide
  exact (threshold_filter_amended [lowStation, tiedStationA, tiedStationB] 50).2.2.2.2
    tiedStationA tiedStationB (by decide) (by rw [hfil])

/-! ## Claims about the normalizer -/

/-- C7: a record whose raw `aqi` field is falsy (absent or an empty string)
is normalised to a reading with `aqi = None` whenever it is kept at all, and
a record whose coercion raises is dropped while all sibling records are
still processed (per-record failure semantics). -/
theorem normalizer_per_record (r : RawRecord) (p : ProcessedRecord)
    (l1 l2 : List RawRecord) (bad : RawRecord)
    (hfalsy : pyTruthy r.aqi = false) (hr : processRecord r = some p)
    (hbad : processRecord bad = none) :
    p.aqi = none
    ∧ process_aqi_data (l1 ++ bad :: l2) =
        some (l1.filterMap processRecord ++ l2.filterMap processRecord) := by
  constructor
  · have haqi : coerceIntField r.aqi = some none := by
      simp [coerceIntField, hfalsy]
    rw [processRecord] at hr
    split at hr
    · rename_i aqi1 pm25 pm10 so2 no2 co o3 ws wd la lo heq h2 h3 h4 h5 h6 h7
        h8 h9 h10 h11
      rw [haqi] at heq
      obtain rfl : (none : Option Int) = aqi1 := Option.some.inj heq
      obtain rfl : _ = p := Option.some.inj hr
      rfl
    · exact absurd hr (by simp)
  · simp [process_aqi_data, List.filterMap_append, List.filterMap_cons, hbad]

/-- A raw record with a falsy (empty-string) AQI and no other fields. -/
def rawNA : RawRecord := { sitename := some "A", aqi := some "" }

/-- The processed form of `rawNA`. -/
def procNA : ProcessedRecord := { site_name := some "A" }

/-- A raw record whose latitude does not parse as a float. -/
def rawBadLat : RawRecord :=
  { sitename := some "B", aqi := some "66", latitude := some "abc" }

def rawGoodC : RawRecord := { sitename := some "C", aqi := some "66" }

def rawGoodD : RawRecord := { sitename := some "D", aqi := some "120" }

/-- Witness for C7 at concrete records: the falsy-AQI record is kept with a
null AQI, and the bad-latitude record is dropped while its two siblings are
processed. -/
theorem normalizer_per_record_witness :
    procNA.aqi = none
    ∧ process_aqi_data ([rawGoodC] ++ rawBadLat :: [rawGoodD]) =
        some ([rawGoodC].filterMap processRecord ++
          [rawGoodD].filterMap processRecord) :=
  normalizer_per_record rawNA procNA [rawGoodC] [rawGoodD] rawBadLat
    (by decide) (by decide) (by decide)

/-! ## Claims about the aggregator -/

/-- The three-value dataset of the C8 claim, as processed monitor records. -/
def threeAqiRecords : List ProcessedRecord :=
  [{ aqi := some 10 }, { aqi := some 20 }, { aqi := some 30 }]

/-- C8: both aggregators return all-null statistics on an empty value
collection instead of raising, and on the values `10, 20, 30` they return
`mean = 20`, `median = 20`, `min = 10`, `max = 30` (the monitor's
`generate_summary` computes no median; the visualizer's statistics compute
all four). -/
theorem aggregator_stats :
    statisticsOf [] = ⟨none, none, none, none⟩
    ∧ statisticsOf [some 10, some 20, some 30] = ⟨some 30, some 10, some 20, some 20⟩
    ∧ generate_summary [] [] = none
    ∧ (∃ s, generate_summary [{ aqi := none }] [] = some s ∧
        s.max_aqi = none ∧ s.min_aqi = none ∧ s.avg_aqi = none)
    ∧ (∃ s, generate_summary threeAqiRecords [] = some s ∧
        s.max_aqi = some 30 ∧ s.min_aqi = some 10 ∧ s.avg_aqi = some 20) := by
  have hms : List.mergeSort [10, 20, 30] (fun a b : Int => decide (a ≤ b)) =
      [10, 20, 30] := List.mergeSort_of_sorted (by decide)
  have hmed : pandasMedian [10, 20, 30] = some 20 := by
    rw [pandasMedian, hms]
    · norm_num
    · decide
  have hfloor : ⌊(200 : ℚ) + 1 / 2⌋ = 200 := by
    rw [Int.floor_eq_iff]
    norm_num
  have hpr : pyRoundInt 200 = 200 := by
    rw [pyRoundInt, if_neg (by norm_num), hfloor]
  refine ⟨rfl, ?_, rfl, ⟨_, rfl, rfl, rfl, rfl⟩, ?_⟩
  · have hv : ([some 10, some 20, some 30] : List (Option Int)).filterMap id =
        [10, 20, 30] := by decide
    have hsum : ([10, 20, 30] : List Int).sum = 60 := by decide
    have hlen : ([10, 20, 30] : List Int).length = 3 := by decide
    simp only [statisticsOf, hv, hmed, hsum, hlen, AQIStats.mk.injEq]
    refine ⟨by decide, by decide, ?_, by decide⟩
    rw [if_neg (by decide)]
    have havg : ((60 : ℤ) : ℚ) / ((3 : ℕ) : ℚ) = 20 := by norm_num
    rw [havg, pyRound1]
    have h10 : (10 : ℚ) * 20 = 200 := by norm_num
    rw [h10, hpr]
    norm_num
  · refine ⟨_, rfl, by decide, by decide, ?_⟩
    show (if (threeAqiRecords.filterMap ProcessedRecord.aqi).isEmpty then none
      else some (((threeAqiRecords.filterMap ProcessedRecord.aqi).sum : Rat) /
        ((threeAqiRecords.filterMap ProcessedRecord.aqi).length : Rat))) = some 20
    have hv : threeAqiRecords.filterMap ProcessedRecord.aqi = [10, 20, 30] := by
      decide
    rw [hv, if_neg (by decide)]
    have hsum : ([10, 20, 30] : List Int).sum = 60 := by decide
    rw [hsum]
    norm_num

/-! ## Claims about the haversine distance -/

/-- C4: the implemented `haversine_distance` coincides with the reference
haversine formula of the spec (`a = sin²(Δlat/2) + cos·cos·sin²(Δlon/2)`,
`distance = 2·R·asin(√a)`, `R = 6371`) for all inputs; being a plain
function of its four arguments it is deterministic and pure by
construction. -/
theorem haversine_refines_spec (lat1 lon1 lat2 lon2 : ℝ) :
    haversine_distance lat1 lon1 lat2 lon2 = haversineSpec lat1 lon1 lat2 lon2 := by
  simp only [haversine_distance, haversineSpec, radiansOf]
  ring

/-- C5: the haversine distance from any point to itself is `0` (in
particular at the Taipei reference coordinates), and the function is
symmetric in its two points. -/
theorem haversine_zero_and_symm :
    (∀ lat lon : ℝ, haversine_distance lat lon lat lon = 0)
    ∧ (∀ lat1 lon1 lat2 lon2 : ℝ,
        haversine_distance lat1 lon1 lat2 lon2 = haversine_distance lat2 lon2 lat1 lon1)
    ∧ haversine_distance 25.0478 121.5170 25.0478 121.5170 = 0 := by
  have hzero : ∀ lat lon : ℝ, haversine_distance lat lon lat lon = 0 := by
    intro lat lon
    simp [haversine_distance, radiansOf]
  refine ⟨hzero, ?_, hzero _ _⟩
  intro lat1 lon1 lat2 lon2
  have hsin : ∀ x y : ℝ, Real.sin ((x - y) / 2) ^ 2 = Real.sin ((y - x) / 2) ^ 2 := by
    intro x y
    rw [show (x - y) / 2 = -((y - x) / 2) by ring, Real.sin_neg, neg_sq]
  simp only [haversine_distance, radiansOf]
  rw [hsin (lat2 * Real.pi / 180) (lat1 * Real.pi / 180),
    hsin (lon2 * Real.pi / 180) (lon1 * Real.pi / 180),
    mul_comm (Real.cos (lat1 * Real.pi / 180)) (Real.cos (lat2 * Real.pi / 180))]

/-! ## Claim about empty-input behaviour -/

/-- C6: the upstream stages do produce explicit empty results on empty
input (`identify_high_aqi_stations` returns `[]`, and displaying an empty
high-AQI list succeeds), but `analyze_distance_distribution` raises
(`Series.idxmin` on the empty distance column) on a zero-length collection
instead of tolerating it, refuting "every downstream stage tolerates a
zero-length collection without raising". -/
theorem empty_input_behavior :
    identify_high_aqi_stations [] 50 = []
    ∧ analyze_distance_distribution [] = none
    ∧ display_results ⟨0, 0, 0, 0, none, none, some 0⟩ [] = some 0 := by
  refine ⟨?_, rfl, rfl⟩
  rw [identify_high_aqi_stations, List.filter_nil, List.mergeSort_nil]
